import Mathlib

/-!
Verification development for the i20 frontend repository.

Two components are embedded:
* `I20.Editor` — the Tiptap editor wrapper (src/unnamed/part_000): the AI
  transform flow (`handleSend`, `handleAccept`, `handleResend`,
  `handleKeepExisting`) and its local React state.
* `I20.ProposalModule` — the proposal development screen
  (src/components/module2/ProposalDevelopmentModule.tsx): the ethics
  workflow handlers, the AI section-suggestion handler, and the set of
  ethics buttons rendered for each status.

The embedding is shallow: each React event handler becomes a pure function
from the component's local state (plus the outcome of any awaited network
call, passed as a parameter) to the new state, together with the list of
externally visible calls the handler makes (props callbacks, navigation,
expert assignment). JavaScript string truthiness (`x || ''`, `if (x)`) is
modelled explicitly.
-/

namespace I20.Editor

/-- JSON body of the POST issued by `handleSend`:
`{ text: editor.getText(), action, style }`. -/
structure RequestBody where
  text : String
  action : String
  style : String
deriving DecidableEq

/-- Outcome of the awaited `fetch` in `handleSend`, as the handler can
observe it: the request may fail at the network level, return a non-2xx
status (`!res.ok`), return a 2xx body that is not valid JSON
(`res.json()` throws), or return valid JSON whose `text` field is either
absent (`none`) or a string. -/
inductive FetchOutcome where
  | networkError : FetchOutcome
  | httpError : FetchOutcome
  | jsonParseError : FetchOutcome
  | jsonOk : Option String → FetchOutcome
deriving DecidableEq

/-- Local state of the `TiptapEditor` component. `content` is the text of
the editing surface (the model does not distinguish `getText()` from
`getHTML()`: both are the surface's content as one string). The remaining
fields are the `useState` hooks: `action`, `style` (the two dropdowns),
`loading`, `responseText`, `modalOpen`, `error`. -/
structure EditorState where
  content : String
  action : String
  style : String
  loading : Bool
  responseText : String
  modalOpen : Bool
  error : String
deriving DecidableEq

/-- A call the editor makes to its caller-supplied props:
`onChange(content)` or `onAIContentAccept(newContent)`. The model assumes
both props are provided (in the repository's one instantiation,
ProposalDevelopmentModule passes both). -/
inductive Callback where
  | onChange : String → Callback
  | onAIContentAccept : String → Callback
deriving DecidableEq

/-- Initial component state: dropdowns default to `rewrite` / `formal`,
no pending response, modal closed, no error, not loading; the surface
shows the `value` prop. -/
def initialEditorState (value : String) : EditorState :=
  { content := value
    action := "rewrite"
    style := "formal"
    loading := false
    responseText := ""
    modalOpen := false
    error := "" }

/-- The values of the fixed `actionOptions` dropdown. -/
def actionValues : List String :=
  ["expand", "rewrite", "summarize", "improve", "simplify"]

/-- The values of the fixed `styleOptions` dropdown. -/
def styleValues : List String :=
  ["formal", "casual", "creative", "professional"]

/-- The generic error message set in `handleSend`'s catch block. -/
def sendFailureMsg : String := "Failed to get response. Please try again."

/-- The JSON body `handleSend` serialises for the POST: the surface's
current text and the two dropdown selections. -/
def sentBody (s : EditorState) : RequestBody :=
  { text := s.content, action := s.action, style := s.style }

/-- `handleSend` after the awaited fetch resolves. The handler first sets
`loading := true` and `error := ""`; on any thrown error (network failure,
`!res.ok`, or `res.json()` failing) the catch block sets the generic
message; on parsed JSON it sets `responseText := data.text || ''` and
opens the modal; `finally` clears `loading`. `responseText` and
`modalOpen` are untouched on the error paths. -/
def handleSend (s : EditorState) (o : FetchOutcome) : EditorState :=
  match o with
  | .networkError => { s with error := sendFailureMsg, loading := false }
  | .httpError => { s with error := sendFailureMsg, loading := false }
  | .jsonParseError => { s with error := sendFailureMsg, loading := false }
  | .jsonOk t =>
      { s with error := ""
               responseText := t.getD ""
               modalOpen := true
               loading := false }

/-- `handleAccept`: when `responseText` is truthy (a non-empty string) it
replaces the surface content with it and invokes `onChange` and
`onAIContentAccept`; in every case it closes the modal and clears
`responseText`. -/
def handleAccept (s : EditorState) : EditorState × List Callback :=
  if s.responseText = "" then
    ({ s with modalOpen := false, responseText := "" }, [])
  else
    ({ s with content := s.responseText, modalOpen := false, responseText := "" },
     [Callback.onChange s.responseText, Callback.onAIContentAccept s.responseText])

/-- `handleResend`: closes the modal and clears the pending response;
no callback is invoked and the surface content is untouched. -/
def handleResend (s : EditorState) : EditorState × List Callback :=
  ({ s with modalOpen := false, responseText := "" }, [])

/-- `handleKeepExisting`: identical effect to `handleResend`. -/
def handleKeepExisting (s : EditorState) : EditorState × List Callback :=
  ({ s with modalOpen := false, responseText := "" }, [])

/-- A user interaction with the rendered component. `send` carries the
outcome of the fetch the handler awaits; `edit` is the user typing in the
surface (the `onUpdate` path); `selectAction` / `selectStyle` are the two
dropdowns. -/
inductive EditorEvent where
  | send : FetchOutcome → EditorEvent
  | accept : EditorEvent
  | resend : EditorEvent
  | keepExisting : EditorEvent
  | selectAction : String → EditorEvent
  | selectStyle : String → EditorEvent
  | edit : String → EditorEvent
deriving DecidableEq

/-- One interaction step, with the guards the rendered UI imposes: the
Send button and the dropdowns are disabled while `loading`, the
full-screen modal overlay blocks everything under it while it is open,
and the three modal buttons exist only while the modal is open. The
dropdowns only offer the fixed option lists. -/
def step (s : EditorState) (e : EditorEvent) : EditorState :=
  match e with
  | .send o => if !s.modalOpen && !s.loading then handleSend s o else s
  | .accept => if s.modalOpen then (handleAccept s).1 else s
  | .resend => if s.modalOpen then (handleResend s).1 else s
  | .keepExisting => if s.modalOpen then (handleKeepExisting s).1 else s
  | .selectAction a =>
      if !s.modalOpen && !s.loading && actionValues.contains a then
        { s with action := a } else s
  | .selectStyle st =>
      if !s.modalOpen && !s.loading && styleValues.contains st then
        { s with style := st } else s
  | .edit c => if !s.modalOpen then { s with content := c } else s

/-- States the component can actually be in: the initial state for some
`value` prop, closed under interaction steps. -/
inductive Reachable : EditorState → Prop where
  | init : ∀ v, Reachable (initialEditorState v)
  | next : ∀ s e, Reachable s → Reachable (step s e)

/-- A concrete editor state matching the spec's worked example: the
surface holds "Long paragraph..." and the dropdowns are set to
summarize / casual. -/
def c1SampleState : EditorState :=
  { content := "Long paragraph..."
    action := "summarize"
    style := "casual"
    loading := false
    responseText := ""
    modalOpen := false
    error := "" }

end I20.Editor

namespace I20.ProposalModule

/-- Modelled from the spec: the module stages of the project wizard
(idea → proposal → ethics review → data collection); the `ModuleStage`
enum itself lives in `types.ts`, which is not part of the excerpt. Only
`DATA_COLLECTION_ANALYSIS` is consumed by this screen. -/
inductive ModuleStage where
  | IDEA_HUB : ModuleStage
  | PROPOSAL_DEVELOPMENT : ModuleStage
  | DATA_COLLECTION_ANALYSIS : ModuleStage
deriving DecidableEq

/-- Modelled from the spec: the user roles referenced by the screen
(`UserRole` lives in `types.ts`, not in the excerpt). -/
inductive UserRole where
  | HCP : UserRole
  | RESEARCHER : UserRole
  | STATISTICIAN : UserRole
deriving DecidableEq, BEq

/-- Modelled from the spec: a predefined user record (`MOCK_USERS`
entries live in `constants.ts`, not in the excerpt); the screen reads
`id`, `name` and `role`. -/
structure User where
  id : String
  name : String
  role : UserRole
deriving DecidableEq

/-- The `idea` part of a project (concept / background / objective
free-text fields, each possibly absent). -/
structure Idea where
  concept : Option String
  background : Option String
  objective : Option String
deriving DecidableEq

/-- The proposal record: a mapping from section id to free-text content
(modelled as an association list, mirroring a JS object's keys in
insertion order), the `ethicsStatus` string and the optional
`ethicsFeedback` string. -/
structure Proposal where
  sections : List (String × String)
  ethicsStatus : String
  ethicsFeedback : Option String
deriving DecidableEq

/-- A project as this screen consumes it: title, optional idea, optional
proposal. -/
structure Project where
  title : String
  idea : Option Idea
  proposal : Option Proposal
deriving DecidableEq

/-- A notification banner: message and one of the four type strings
`success | error | info | warning`. -/
structure Notification where
  message : String
  ntype : String
deriving DecidableEq

/-- The state visible to the screen: the shared project context's
`currentProject`, project stage, `error` slot and `isLoading` flag, plus
the screen's local `notification`. -/
structure ModuleState where
  currentProject : Option Project
  stage : ModuleStage
  error : Option String
  isLoading : Bool
  notification : Option Notification
deriving DecidableEq

/-- An externally visible call the screen makes through the context or
the router: `navigate(path)` or `assignExpert(role, id)`. -/
inductive ContextEffect where
  | navigate : String → ContextEffect
  | assignExpertCall : String → String → ContextEffect
deriving DecidableEq

/-- A partial proposal object as passed to `updateProposal`: each field
present or absent. -/
structure ProposalPatch where
  sections : Option (List (String × String)) := none
  ethicsStatus : Option String := none
  ethicsFeedback : Option String := none
deriving DecidableEq

/-- The proposal a project starts from when none exists yet (the screen's
own initialisation uses `{ sections: {}, ethicsStatus: "Not Submitted" }`). -/
def emptyProposal : Proposal :=
  { sections := [], ethicsStatus := "Not Submitted", ethicsFeedback := none }

/-- Merge a partial proposal object into an existing proposal: present
fields replace, absent fields keep the old value. -/
def applyPatch (p : Proposal) (d : ProposalPatch) : Proposal :=
  { sections := d.sections.getD p.sections
    ethicsStatus := d.ethicsStatus.getD p.ethicsStatus
    ethicsFeedback := match d.ethicsFeedback with
      | some f => some f
      | none => p.ethicsFeedback }

/-- Modelled from the spec: the project context's `updateProposal(partial)`
(the context implementation is not in the excerpt; the spec describes it
as merging the partial into the current project's proposal). When the
project has no proposal yet, the patch is merged into the initial
proposal. Does nothing without a current project. -/
def updateProposal (s : ModuleState) (d : ProposalPatch) : ModuleState :=
  match s.currentProject with
  | none => s
  | some proj =>
      { s with
        currentProject := some
          { proj with proposal := some (applyPatch (proj.proposal.getD emptyProposal) d) } }

/-- Read a section's content from the association list; a missing key
reads as the empty string (the screen's `sections[sectionId] || ''`). -/
def getSection : List (String × String) → String → String
  | [], _ => ""
  | (k, v) :: rest, id => if k = id then v else getSection rest id

/-- Overwrite-or-append a key, mirroring the JS spread
`{ ...sections, [sectionId]: value }` (existing key keeps its position,
a new key is appended). -/
def setSection : List (String × String) → String → String → List (String × String)
  | [], id, v => [(id, v)]
  | (k, w) :: rest, id, v =>
      if k = id then (id, v) :: rest else (k, w) :: setSection rest id v

/-- `handleSectionChange`: returns without effect when the project has no
proposal; otherwise stores the full proposal with the one section
replaced. -/
def handleSectionChange (s : ModuleState) (sectionId value : String) : ModuleState :=
  match s.currentProject.bind Project.proposal with
  | none => s
  | some prop =>
      updateProposal s
        { sections := some (setSection prop.sections sectionId value)
          ethicsStatus := some prop.ethicsStatus
          ethicsFeedback := prop.ethicsFeedback }

/-- The `{text?, error?}` pair returned by the external
`generateTextWithRAG` collaborator (its implementation is outside the
excerpt; the spec fixes only this call contract). -/
structure AIResponse where
  text : Option String
  error : Option String
deriving DecidableEq

/-- JavaScript truthiness of an optional string: `undefined` and `""` are
falsy, every other string is truthy. -/
def jsTruthy : Option String → Bool
  | none => false
  | some s => !(s == "")

/-- The separator the screen places between the existing section content
and appended AI suggestions. -/
def aiSeparator : String := "\n\n--- AI Suggestions ---\n"

/-- The generic fallback error for a failed AI suggestion call. -/
def aiFallbackError : String := "Failed to get AI suggestions."

/-- `getAISectionSuggestion` after the awaited `generateTextWithRAG`
resolves to `response`. Without a project and proposal it only sets an
error. Otherwise: on `response.text && !response.error` it appends the
separator plus the returned text to the section's current content and
shows an info notification; otherwise it sets
`response.error || fallback` as the error and shows an error
notification. `isLoading` is raised and lowered within the handler. -/
def getAISectionSuggestion (s : ModuleState) (sectionId : String)
    (response : AIResponse) : ModuleState :=
  match s.currentProject with
  | none => { s with error := some "No active project or proposal to get suggestions for." }
  | some proj =>
      match proj.proposal with
      | none => { s with error := some "No active project or proposal to get suggestions for." }
      | some prop =>
          let s1 : ModuleState := { s with isLoading := true, error := none, notification := none }
          let currentSectionContent := getSection prop.sections sectionId
          if jsTruthy response.text && !jsTruthy response.error then
            let s2 := handleSectionChange s1 sectionId
              (currentSectionContent ++ aiSeparator ++ response.text.getD "")
            { s2 with
                notification := some
                  { message := "AI suggestions for \x27" ++ sectionId ++ "\x27 loaded."
                    ntype := "info" }
                isLoading := false }
          else
            { s1 with
                error := some (if jsTruthy response.error then response.error.getD "" else aiFallbackError)
                notification := some
                  { message := "Error: " ++ (response.error.getD "undefined")
                    ntype := "error" }
                isLoading := false }

/-- The canned feedback string set by `simulateEthicsFeedback`. -/
def simulatedFeedback : String :=
  "The Ethics Committee has reviewed your proposal. Please clarify the patient recruitment strategy (Section: Methodology) and provide more details on data anonymization (Section: Ethics). Resubmission required."

/-- `submitToEthics`: without a project it does nothing; otherwise it sets
`ethicsStatus := "Submitted"` through `updateProposal` and shows a success
notification. -/
def submitToEthics (s : ModuleState) : ModuleState :=
  match s.currentProject with
  | none => s
  | some _ =>
      { updateProposal s { ethicsStatus := some "Submitted" } with
        notification := some
          { message := "Proposal submitted to Ethics Committee/IRB (Simulated)."
            ntype := "success" } }

/-- `simulateEthicsFeedback`: without a project it does nothing; otherwise
it sets `ethicsStatus := "Feedback Received"` with the canned feedback
text and shows an info notification. -/
def simulateEthicsFeedback (s : ModuleState) : ModuleState :=
  match s.currentProject with
  | none => s
  | some _ =>
      { updateProposal s
          { ethicsStatus := some "Feedback Received", ethicsFeedback := some simulatedFeedback } with
        notification := some
          { message := "Simulated feedback received from Ethics Committee."
            ntype := "info" } }

/-- The notification message naming the assigned statistician. -/
def statisticianAssignedMsg (name : String) : String :=
  "Proposal Approved! Statistician \"" ++ name ++ "\" has been assigned (12 hours allocated)."

/-- The softer notification when no statistician record exists. -/
def noStatisticianMsg : String :=
  "Proposal Approved! (No mock statistician found)."

/-- `markEthicsApproved`, parameterised by the predefined user list
(`MOCK_USERS`, defined in `constants.ts` outside the excerpt): without a
project it does nothing; otherwise it sets `ethicsStatus := "Approved"`
with a congratulation as feedback, then looks for the first user with
the statistician role — if found, it calls
`assignExpert('statistician', id)` and shows a success notification
naming that user; if not, it shows the softer success notification and
makes no assignment. -/
def markEthicsApproved (users : List User) (s : ModuleState) :
    ModuleState × List ContextEffect :=
  match s.currentProject with
  | none => (s, [])
  | some _ =>
      let s1 := updateProposal s
        { ethicsStatus := some "Approved"
          ethicsFeedback := some "Congratulations! Your proposal has been approved." }
      match users.find? (fun u => u.role == UserRole.STATISTICIAN) with
      | some u =>
          ({ s1 with notification := some { message := statisticianAssignedMsg u.name, ntype := "success" } },
           [ContextEffect.assignExpertCall "statistician" u.id])
      | none =>
          ({ s1 with notification := some { message := noStatisticianMsg, ntype := "success" } },
           [])

/-- The blocking error set when proceeding without an approved proposal. -/
def notApprovedMsg : String :=
  "Proposal must be approved by Ethics Committee before proceeding."

/-- The ethics status of the current project's proposal, as the screen
reads it with optional chaining (`currentProject?.proposal?.ethicsStatus`). -/
def ethicsStatusOf (s : ModuleState) : Option String :=
  (s.currentProject.bind Project.proposal).map Proposal.ethicsStatus

/-- `proceedToDataCollection`: when the proposal's ethics status reads
`"Approved"` it sets the stage to data collection, shows a success
notification and navigates to `/data` (modelled from the spec for the
context's `setProjectStage` and the router's `navigate`, neither of which
is in the excerpt); for any other status it sets the blocking error and
an error notification, touching neither the stage nor the route. -/
def proceedToDataCollection (s : ModuleState) : ModuleState × List ContextEffect :=
  if ethicsStatusOf s = some "Approved" then
    ({ s with
        stage := ModuleStage.DATA_COLLECTION_ANALYSIS
        notification := some
          { message := "Proceeding to Data Collection & Analysis.", ntype := "success" } },
     [ContextEffect.navigate "/data"])
  else
    ({ s with
        error := some notApprovedMsg
        notification := some { message := notApprovedMsg, ntype := "error" } },
     [])

/-- An ethics-workflow action button rendered by the screen. -/
inductive EthicsAction where
  | submitToEthics : EthicsAction
  | simulateEthicsFeedback : EthicsAction
  | markEthicsApproved : EthicsAction
deriving DecidableEq

/-- The ethics buttons the screen renders, from the JSX guards: Submit
when the status is `Not Submitted` (editable roles), Simulate Feedback
when `Submitted` (any viewer), Resubmit and Force Mark Approved when
`Feedback Received` (editable roles), and Force Mark Approved (editable
roles) for any status other than `Approved`, `Feedback Received` and
`Submitted`. -/
def ethicsButtons (canEdit : Bool) (status : String) : List EthicsAction :=
  (if canEdit && status == "Not Submitted" then [EthicsAction.submitToEthics] else []) ++
  (if status == "Submitted" then [EthicsAction.simulateEthicsFeedback] else []) ++
  (if canEdit && status == "Feedback Received" then
    [EthicsAction.submitToEthics, EthicsAction.markEthicsApproved] else []) ++
  (if canEdit && status != "Approved" && status != "Feedback Received" && status != "Submitted" then
    [EthicsAction.markEthicsApproved] else [])

/-- The four admissible ethics status values. -/
def ethicsStatusValues : List String :=
  ["Not Submitted", "Submitted", "Feedback Received", "Approved"]

/-- The content of one section of the current proposal, as the screen
reads it for the active editor. -/
def sectionContentOf (s : ModuleState) (id : String) : Option String :=
  (s.currentProject.bind Project.proposal).map (fun p => getSection p.sections id)

/-- A concrete proposal with one populated section, for instantiating
theorems. -/
def sampleProposal (status : String) : Proposal :=
  { sections := [("background", "Old text")], ethicsStatus := status, ethicsFeedback := none }

/-- A concrete project around `sampleProposal`. -/
def sampleProject (status : String) : Project :=
  { title := "Project X"
    idea := some { concept := some "A concept", background := none, objective := none }
    proposal := some (sampleProposal status) }

/-- A concrete module state around `sampleProject`. -/
def sampleState (status : String) : ModuleState :=
  { currentProject := some (sampleProject status)
    stage := ModuleStage.PROPOSAL_DEVELOPMENT
    error := none
    isLoading := false
    notification := none }

/-- A concrete predefined user list containing one statistician. -/
def sampleUsers : List User :=
  [{ id := "u1", name := "Dr. Lee", role := UserRole.RESEARCHER },
   { id := "u2", name := "Dr. Stats", role := UserRole.STATISTICIAN }]

end I20.ProposalModule

namespace I20.Editor

/-- Invariant of every reachable editor state: the component is never at
rest with `loading` set (the handler clears it in `finally`), and
whenever the modal is closed the pending `responseText` is empty (it
starts empty, is only set together with opening the modal, and every way
of closing the modal clears it). -/
theorem reachable_inv (s : EditorState) (h : Reachable s) :
    s.loading = false ∧ (s.modalOpen = false → s.responseText = "") := by
  induction h with
  | init v => exact ⟨rfl, fun _ => rfl⟩
  | next s e _ ih =>
      obtain ⟨hl, hm⟩ := ih
      cases e with
      | send o =>
          simp only [step]
          split_ifs with hg
          · cases o with
            | networkError => exact ⟨rfl, hm⟩
            | httpError => exact ⟨rfl, hm⟩
            | jsonParseError => exact ⟨rfl, hm⟩
            | jsonOk t => exact ⟨rfl, fun hc => Bool.noConfusion hc⟩
          · exact ⟨hl, hm⟩
      | accept =>
          simp only [step]
          split_ifs with hg
          · simp only [handleAccept]
            split_ifs with hr
            · exact ⟨hl, fun _ => rfl⟩
            · exact ⟨hl, fun _ => rfl⟩
          · exact ⟨hl, hm⟩
      | resend =>
          simp only [step]
          split_ifs with hg
          · exact ⟨hl, fun _ => rfl⟩
          · exact ⟨hl, hm⟩
      | keepExisting =>
          simp only [step]
          split_ifs with hg
          · exact ⟨hl, fun _ => rfl⟩
          · exact ⟨hl, hm⟩
      | selectAction a =>
          simp only [step]
          split_ifs <;> exact ⟨hl, hm⟩
      | selectStyle st =>
          simp only [step]
          split_ifs <;> exact ⟨hl, hm⟩
      | edit c =>
          simp only [step]
          split_ifs <;> exact ⟨hl, hm⟩

/-- C1, counterexample: a 2xx JSON response whose `text` field is the
empty string does contain a `text` field, and the modal opens showing it,
but Accept then leaves the surface content unchanged ("Old", not "") and
invokes no callback — contradicting the claim that Accept makes the
surface content exactly the response text and invokes the acceptance
callback with it. -/
theorem c1_empty_text_counterexample :
    (handleSend (initialEditorState "Old") (FetchOutcome.jsonOk (some ""))).modalOpen = true ∧
    (handleSend (initialEditorState "Old") (FetchOutcome.jsonOk (some ""))).responseText = "" ∧
    (handleAccept (handleSend (initialEditorState "Old") (FetchOutcome.jsonOk (some "")))).1.content = "Old" ∧
    (handleAccept (handleSend (initialEditorState "Old") (FetchOutcome.jsonOk (some "")))).2 = [] ∧
    ¬((handleAccept (handleSend (initialEditorState "Old") (FetchOutcome.jsonOk (some "")))).1.content = "" ∧
      Callback.onAIContentAccept "" ∈
        (handleAccept (handleSend (initialEditorState "Old") (FetchOutcome.jsonOk (some "")))).2) := by
  decide

/-- C1 (amended to a non-empty `text` field): Send posts exactly
`{text, action, style}` with the surface's current text and the two
dropdown selections; on a 2xx JSON response with a non-empty `text`
field the modal opens showing that text, and Accept makes the surface
content exactly that text, invoking `onChange` and `onAIContentAccept`
with it. -/
theorem c1_transform_flow (s : EditorState) (t : String) (ht : ¬t = "") :
    sentBody s = { text := s.content, action := s.action, style := s.style } ∧
    (handleSend s (FetchOutcome.jsonOk (some t))).modalOpen = true ∧
    (handleSend s (FetchOutcome.jsonOk (some t))).responseText = t ∧
    (handleAccept (handleSend s (FetchOutcome.jsonOk (some t)))).1.content = t ∧
    (handleAccept (handleSend s (FetchOutcome.jsonOk (some t)))).2 =
      [Callback.onChange t, Callback.onAIContentAccept t] := by
  refine ⟨rfl, rfl, rfl, ?_, ?_⟩
  · simp [handleAccept, handleSend, ht]
  · simp [handleAccept, handleSend, ht]

/-- C1 witness: the spec's worked example, with action "summarize",
style "casual", surface text "Long paragraph..." and response
"Short version.". -/
theorem c1_transform_flow_witness :
    sentBody c1SampleState =
      { text := "Long paragraph...", action := "summarize", style := "casual" } ∧
    (handleSend c1SampleState (FetchOutcome.jsonOk (some "Short version."))).modalOpen = true ∧
    (handleAccept (handleSend c1SampleState (FetchOutcome.jsonOk (some "Short version.")))).1.content =
      "Short version." := by
  have h := c1_transform_flow c1SampleState "Short version." (by decide)
  exact ⟨h.1, h.2.1, h.2.2.2.1⟩

/-- C3, counterexample: a 2xx response whose body is valid JSON without a
`text` field is not collapsed into the generic error — no error is set at
all and the response modal opens (showing the empty string). -/
theorem c3_missing_text_counterexample :
    (handleSend (initialEditorState "x") (FetchOutcome.jsonOk none)).error = "" ∧
    (handleSend (initialEditorState "x") (FetchOutcome.jsonOk none)).modalOpen = true ∧
    ¬((handleSend (initialEditorState "x") (FetchOutcome.jsonOk none)).error = sendFailureMsg ∧
      (handleSend (initialEditorState "x") (FetchOutcome.jsonOk none)).modalOpen = false) := by
  decide

/-- C3 (amended): the failure modes that throw inside the handler —
network error, non-2xx status, and a body that is not valid JSON — all
produce the same single generic error message and leave the modal and
pending response untouched; but a 2xx body that is valid JSON without a
`text` field is treated as success with empty text (the modal opens and
no error is set). -/
theorem c3_uniform_failure (s : EditorState) (o : FetchOutcome)
    (h : o = FetchOutcome.networkError ∨ o = FetchOutcome.httpError ∨ o = FetchOutcome.jsonParseError) :
    (handleSend s o).error = sendFailureMsg ∧
    (handleSend s o).modalOpen = s.modalOpen ∧
    (handleSend s o).responseText = s.responseText := by
  rcases h with h | h | h <;> subst h <;> exact ⟨rfl, rfl, rfl⟩

/-- C3 witness: the non-2xx failure mode at a concrete state. -/
theorem c3_uniform_failure_witness :
    (handleSend (initialEditorState "x") FetchOutcome.httpError).error = sendFailureMsg ∧
    (handleSend (initialEditorState "x") FetchOutcome.httpError).modalOpen = false := by
  have h := c3_uniform_failure (initialEditorState "x") FetchOutcome.httpError (Or.inr (Or.inl rfl))
  exact ⟨h.1, h.2.1⟩

/-- C7: after a transform request fails with a non-2xx response, from any
reachable state in which Send can be pressed (modal closed), the
component's state has an empty `responseText`, a non-empty error string,
and a closed modal. -/
theorem c7_failed_send (s : EditorState) (hr : Reachable s) (hm : s.modalOpen = false) :
    (handleSend s FetchOutcome.httpError).responseText = "" ∧
    ¬(handleSend s FetchOutcome.httpError).error = "" ∧
    (handleSend s FetchOutcome.httpError).modalOpen = false := by
  obtain ⟨-, hresp⟩ := reachable_inv s hr
  have hne : ¬sendFailureMsg = "" := by decide
  exact ⟨hresp hm, fun hc => hne hc, hm⟩

/-- C7 witness: the initial state. -/
theorem c7_failed_send_witness :
    (handleSend (initialEditorState "") FetchOutcome.httpError).responseText = "" ∧
    ¬(handleSend (initialEditorState "") FetchOutcome.httpError).error = "" ∧
    (handleSend (initialEditorState "") FetchOutcome.httpError).modalOpen = false :=
  c7_failed_send (initialEditorState "") (Reachable.init "") rfl

/-- C9: Resend and Keep Existing leave the surface content unchanged,
invoke no callback, close the modal and clear the pending response. -/
theorem c9_resend_keep_frame (s : EditorState) :
    handleResend s = ({ s with modalOpen := false, responseText := "" }, []) ∧
    handleKeepExisting s = ({ s with modalOpen := false, responseText := "" }, []) ∧
    (handleResend s).1.content = s.content ∧
    (handleKeepExisting s).1.content = s.content ∧
    (handleResend s).2 = [] ∧
    (handleKeepExisting s).2 = [] :=
  ⟨rfl, rfl, rfl, rfl, rfl, rfl⟩

/-- C10: when the pending `responseText` is empty, Accept closes the
modal and clears the pending response but leaves the surface content
unchanged and invokes no callback. -/
theorem c10_empty_accept (s : EditorState) (h : s.responseText = "") :
    (handleAccept s).1.content = s.content ∧
    (handleAccept s).2 = [] ∧
    (handleAccept s).1.modalOpen = false ∧
    (handleAccept s).1.responseText = "" := by
  simp [handleAccept, h]

/-- C10 witness: a state whose surface holds "doc" with no pending
response. -/
theorem c10_empty_accept_witness :
    (handleAccept (initialEditorState "doc")).1.content = "doc" ∧
    (handleAccept (initialEditorState "doc")).2 = [] :=
  ⟨(c10_empty_accept (initialEditorState "doc") rfl).1,
   (c10_empty_accept (initialEditorState "doc") rfl).2.1⟩

end I20.Editor

namespace I20.ProposalModule

/-- Writing a section and reading it back gives the written value. -/
theorem getSection_setSection (secs : List (String × String)) (id v : String) :
    getSection (setSection secs id v) id = v := by
  induction secs with
  | nil => simp [setSection, getSection]
  | cons kv rest ih =>
      obtain ⟨k, w⟩ := kv
      by_cases hk : k = id
      · simp [setSection, hk, getSection]
      · simp [setSection, hk, getSection, ih]

/-- C2: "Proceed to Data Collection" sets the stage to data collection
and navigates to /data exactly when the proposal's ethics status is
"Approved"; for any other status it sets the blocking error and changes
neither the stage nor the route. -/
theorem c2_proceed_gated (s : ModuleState) :
    (ethicsStatusOf s = some "Approved" →
      (proceedToDataCollection s).1.stage = ModuleStage.DATA_COLLECTION_ANALYSIS ∧
      (proceedToDataCollection s).2 = [ContextEffect.navigate "/data"]) ∧
    (¬ethicsStatusOf s = some "Approved" →
      (proceedToDataCollection s).1.error = some notApprovedMsg ∧
      (proceedToDataCollection s).1.stage = s.stage ∧
      (proceedToDataCollection s).2 = []) := by
  constructor
  · intro h
    simp [proceedToDataCollection, h]
  · intro h
    simp [proceedToDataCollection, h]

/-- C2 witness: an approved project proceeds and navigates; a submitted
project is blocked with the error, keeping stage and route. -/
theorem c2_proceed_gated_witness :
    (proceedToDataCollection (sampleState "Approved")).1.stage = ModuleStage.DATA_COLLECTION_ANALYSIS ∧
    (proceedToDataCollection (sampleState "Approved")).2 = [ContextEffect.navigate "/data"] ∧
    (proceedToDataCollection (sampleState "Submitted")).1.error = some notApprovedMsg ∧
    (proceedToDataCollection (sampleState "Submitted")).1.stage = ModuleStage.PROPOSAL_DEVELOPMENT ∧
    (proceedToDataCollection (sampleState "Submitted")).2 = [] := by
  have h1 := (c2_proceed_gated (sampleState "Approved")).1 (by decide)
  have h2 := (c2_proceed_gated (sampleState "Submitted")).2 (by decide)
  exact ⟨h1.1, h1.2, h2.1, h2.2.1, h2.2.2⟩

/-- C4, counterexample: from status "Submitted" the only rendered ethics
button is Simulate Feedback — the dev force-approve escape hatch is not
an enabled transition there, contradicting its claimed reachability from
every state. -/
theorem c4_force_approve_counterexample :
    ¬EthicsAction.markEthicsApproved ∈ ethicsButtons true "Submitted" ∧
    ethicsButtons true "Submitted" = [EthicsAction.simulateEthicsFeedback] := by
  decide

/-- C4 (amended): in the ethics status machine, Approved is terminal (no
ethics button is rendered for it), and the dev force-approve escape
hatch is enabled exactly from the states other than "Submitted" and
"Approved" (for editing roles): "Not Submitted", "Feedback Received",
and any out-of-catalog status string. -/
theorem c4_approved_terminal (canEdit : Bool) (status : String) :
    ethicsButtons canEdit "Approved" = [] ∧
    (EthicsAction.markEthicsApproved ∈ ethicsButtons canEdit status ↔
      (canEdit = true ∧ ¬status = "Submitted" ∧ ¬status = "Approved")) := by
  constructor
  · cases canEdit <;> decide
  · by_cases h2 : status = "Submitted"
    · subst h2; cases canEdit <;> decide
    · by_cases h4 : status = "Approved"
      · subst h4; cases canEdit <;> decide
      · by_cases h1 : status = "Not Submitted"
        · subst h1; cases canEdit <;> decide
        · by_cases h3 : status = "Feedback Received"
          · subst h3; cases canEdit <;> decide
          · cases canEdit <;>
              simp [ethicsButtons, h1, h2, h3, h4, beq_iff_eq, bne_iff_ne]

/-- C5: each ethics-workflow operation, run with a current project,
leaves the proposal's ethics status equal to one of the four enumerated
values — `submitToEthics` yields "Submitted", `simulateEthicsFeedback`
yields "Feedback Received", `markEthicsApproved` yields "Approved". -/
theorem c5_status_enum (s : ModuleState) (users : List User)
    (h : s.currentProject.isSome = true) :
    (ethicsStatusOf (submitToEthics s) = some "Submitted" ∧
      "Submitted" ∈ ethicsStatusValues) ∧
    (ethicsStatusOf (simulateEthicsFeedback s) = some "Feedback Received" ∧
      "Feedback Received" ∈ ethicsStatusValues) ∧
    (ethicsStatusOf (markEthicsApproved users s).1 = some "Approved" ∧
      "Approved" ∈ ethicsStatusValues) := by
  obtain ⟨proj, hp⟩ := Option.isSome_iff_exists.mp h
  refine ⟨⟨?_, by decide⟩, ⟨?_, by decide⟩, ⟨?_, by decide⟩⟩
  · simp [submitToEthics, hp, updateProposal, ethicsStatusOf, applyPatch]
  · simp [simulateEthicsFeedback, hp, updateProposal, ethicsStatusOf, applyPatch]
  · cases hf : users.find? (fun u => u.role == UserRole.STATISTICIAN) <;>
      simp [markEthicsApproved, hp, hf, updateProposal, ethicsStatusOf, applyPatch]

/-- C5 witness: the three operations at concrete states. -/
theorem c5_status_enum_witness :
    ethicsStatusOf (submitToEthics (sampleState "Not Submitted")) = some "Submitted" ∧
    ethicsStatusOf (simulateEthicsFeedback (sampleState "Submitted")) = some "Feedback Received" ∧
    ethicsStatusOf (markEthicsApproved sampleUsers (sampleState "Feedback Received")).1 = some "Approved" := by
  have h1 := c5_status_enum (sampleState "Not Submitted") sampleUsers rfl
  have h2 := c5_status_enum (sampleState "Submitted") sampleUsers rfl
  have h3 := c5_status_enum (sampleState "Feedback Received") sampleUsers rfl
  exact ⟨h1.1.1, h2.2.1.1, h3.2.2.1⟩

/-- C8: `markEthicsApproved` with a current project always yields status
"Approved"; when the predefined user list contains a statistician
(first match), it emits `assignExpert('statistician', id)` and a success
notification naming that user; when it contains none, it emits no
assignment and the softer success notification. -/
theorem c8_approval_assignment (s : ModuleState) (users : List User)
    (h : s.currentProject.isSome = true) :
    (∀ u, users.find? (fun x => x.role == UserRole.STATISTICIAN) = some u →
      (markEthicsApproved users s).2 = [ContextEffect.assignExpertCall "statistician" u.id] ∧
      (markEthicsApproved users s).1.notification =
        some { message := statisticianAssignedMsg u.name, ntype := "success" }) ∧
    (users.find? (fun x => x.role == UserRole.STATISTICIAN) = none →
      (markEthicsApproved users s).2 = [] ∧
      (markEthicsApproved users s).1.notification =
        some { message := noStatisticianMsg, ntype := "success" }) ∧
    ethicsStatusOf (markEthicsApproved users s).1 = some "Approved" := by
  obtain ⟨proj, hp⟩ := Option.isSome_iff_exists.mp h
  refine ⟨?_, ?_, ?_⟩
  · intro u hu
    simp [markEthicsApproved, hp, hu]
  · intro hn
    simp [markEthicsApproved, hp, hn]
  · cases hf : users.find? (fun u => u.role == UserRole.STATISTICIAN) <;>
      simp [markEthicsApproved, hp, hf, updateProposal, ethicsStatusOf, applyPatch]

/-- C8 witness: with `sampleUsers` the statistician "Dr. Stats" (id u2)
is assigned and named; with an empty user list no assignment happens;
in both cases the status reads "Approved". -/
theorem c8_approval_assignment_witness :
    (markEthicsApproved sampleUsers (sampleState "Not Submitted")).2 =
      [ContextEffect.assignExpertCall "statistician" "u2"] ∧
    (markEthicsApproved sampleUsers (sampleState "Not Submitted")).1.notification =
      some { message := statisticianAssignedMsg "Dr. Stats", ntype := "success" } ∧
    (markEthicsApproved [] (sampleState "Not Submitted")).2 = [] ∧
    ethicsStatusOf (markEthicsApproved sampleUsers (sampleState "Not Submitted")).1 = some "Approved" := by
  have h1 := c8_approval_assignment (sampleState "Not Submitted") sampleUsers rfl
  have h2 := c8_approval_assignment (sampleState "Not Submitted") [] rfl
  have hu := h1.1 { id := "u2", name := "Dr. Stats", role := UserRole.STATISTICIAN } (by decide)
  exact ⟨hu.1, hu.2, (h2.2.1 rfl).1, h1.2.2⟩

/-- C6: with a current project and proposal, a successful AI suggestion
call (truthy `text`, falsy `error`) makes the section's stored content
the previous content followed by the separator marker followed by the
returned text; an unsuccessful call leaves the section content unchanged
and sets the error to the reported error string when one is reported
(non-empty), else to the generic fallback. -/
theorem c6_section_suggestion (s : ModuleState) (proj : Project) (prop : Proposal)
    (sectionId : String) (resp : AIResponse)
    (hp : s.currentProject = some proj) (hq : proj.proposal = some prop) :
    (jsTruthy resp.text = true → jsTruthy resp.error = false →
      sectionContentOf (getAISectionSuggestion s sectionId resp) sectionId =
        some (getSection prop.sections sectionId ++ aiSeparator ++ resp.text.getD "") ∧
      (getAISectionSuggestion s sectionId resp).error = none) ∧
    (jsTruthy resp.text = false ∨ jsTruthy resp.error = true →
      sectionContentOf (getAISectionSuggestion s sectionId resp) sectionId =
        sectionContentOf s sectionId ∧
      (getAISectionSuggestion s sectionId resp).error =
        some (if jsTruthy resp.error then resp.error.getD "" else aiFallbackError)) := by
  constructor
  · intro ht he
    simp [getAISectionSuggestion, hp, hq, ht, he, handleSectionChange, updateProposal,
      applyPatch, sectionContentOf, getSection_setSection]
  · intro h
    have hc : (jsTruthy resp.text && !jsTruthy resp.error) = false := by
      rcases h with h | h <;> simp [h]
    simp [getAISectionSuggestion, hp, hq, hc, sectionContentOf]

/-- C6 witness: a successful call appends "Add more citations." behind
the separator to the stored "Old text"; a failed call with reported
error "Quota exceeded" surfaces that string. -/
theorem c6_section_suggestion_witness :
    sectionContentOf
        (getAISectionSuggestion (sampleState "Not Submitted") "background"
          { text := some "Add more citations.", error := none }) "background" =
      some ("Old text" ++ aiSeparator ++ "Add more citations.") ∧
    (getAISectionSuggestion (sampleState "Not Submitted") "background"
        { text := none, error := some "Quota exceeded" }).error = some "Quota exceeded" ∧
    sectionContentOf
        (getAISectionSuggestion (sampleState "Not Submitted") "background"
          { text := none, error := some "Quota exceeded" }) "background" =
      some "Old text" := by
  have h1 := (c6_section_suggestion (sampleState "Not Submitted")
    (sampleProject "Not Submitted") (sampleProposal "Not Submitted") "background"
    { text := some "Add more citations.", error := none } rfl rfl).1 rfl rfl
  have h2 := (c6_section_suggestion (sampleState "Not Submitted")
    (sampleProject "Not Submitted") (sampleProposal "Not Submitted") "background"
    { text := none, error := some "Quota exceeded" } rfl rfl).2 (Or.inl rfl)
  exact ⟨h1.1, h2.2, h2.1⟩

end I20.ProposalModule

namespace I20.Editor

/-- C9 witness: Resend at a concrete state keeps the content and emits
no callback. -/
theorem c9_resend_keep_frame_witness :
    (handleResend (initialEditorState "keep me")).1.content = "keep me" ∧
    (handleKeepExisting (initialEditorState "keep me")).1.content = "keep me" ∧
    (handleResend (initialEditorState "keep me")).2 = [] ∧
    (handleKeepExisting (initialEditorState "keep me")).2 = [] := by
  have h := c9_resend_keep_frame (initialEditorState "keep me")
  exact ⟨h.2.2.1, h.2.2.2.1, h.2.2.2.2.1, h.2.2.2.2.2⟩

end I20.Editor

namespace I20.ProposalModule

/-- C4 witness: with an editing role, no ethics button is rendered for
"Approved", while force-approve is enabled from "Not Submitted". -/
theorem c4_approved_terminal_witness :
    ethicsButtons true "Approved" = [] ∧
    EthicsAction.markEthicsApproved ∈ ethicsButtons true "Not Submitted" :=
  ⟨(c4_approved_terminal true "Not Submitted").1,
   (c4_approved_terminal true "Not Submitted").2.mpr ⟨rfl, by decide, by decide⟩⟩

end I20.ProposalModule
